import Mathlib

/-!
Verification of the AppFlowy flowy-folder2 event-handler layer
(frontend/rust-lib/flowy-folder2/src/event_handler.rs).

The handlers are thin glue over an opaque `FolderManager` held through a weak
reference.  We embed each handler as a Lean function parameterised by

  * an optional manager value (`Option (FolderManager σ)`), modelling the weak
    handle: `none` means the owner has been dropped and the upgrade fails;
  * a record of the manager operations the handler calls, each threaded
    through an abstract state `σ` (a failing operation may still change state,
    so operations return a pair of a result and a new state; pure reads return
    only a result);
  * the fallible payload-to-params conversions (`try_into` in the source),
    passed as function arguments since their implementations live in the
    entities crate, outside the slice under analysis.

Error codes and the few manager behaviours a claim depends on directly are
modelled from the specification, as noted on each such definition.
-/

/-- Modelled from the spec: the error taxonomy of §7 (the flowy-error crate is
not part of the analysed slice).  Kinds: referenced id absent, invariant
violation, owning manager no longer available, unexpected/unrecoverable. -/
inductive ErrorCode : Type where
  | internal : ErrorCode
  | notFound : ErrorCode
  | invalidOperation : ErrorCode
  | gone : ErrorCode
deriving DecidableEq

/-- A FlowyError value: an error code together with a context message. -/
structure FlowyError : Type where
  code : ErrorCode
  msg : String
deriving DecidableEq

/-- Modelled from the spec: the constructor FlowyError::internal() of the
flowy-error crate produces the Internal error kind (§7). -/
def FlowyError.internal : FlowyError := ⟨ErrorCode.internal, ""⟩

/-- Modelled from the spec: FlowyError::workspace_id() marks an invalid
workspace id; the spec (§6) classifies an empty workspace id as a user-facing
InvalidOperation. -/
def FlowyError.workspace_id : FlowyError := ⟨ErrorCode.invalidOperation, ""⟩

/-- Modelled from the spec: FlowyError::record_not_found() produces the
NotFound error kind (§7). -/
def FlowyError.record_not_found : FlowyError := ⟨ErrorCode.notFound, ""⟩

/-- FlowyError::with_context replaces the error message, keeping the code. -/
def FlowyError.with_context (e : FlowyError) (ctx : String) : FlowyError :=
  ⟨e.code, ctx⟩

/-- Workspace record (id, name, creation time). -/
structure Workspace : Type where
  id : String
  name : String
  createdAt : Int
deriving DecidableEq

/-- A view node as returned by the manager; `childViewIds` are the ids of its
children in the tree (the converter below deliberately drops them). -/
structure View : Type where
  id : String
  name : String
  createdAt : Int
  childViewIds : List String
deriving DecidableEq

/-- ViewPB: the serialised view, whose `child_views` field holds nested
serialised views. -/
inductive ViewPB : Type where
  | mk : String → String → Int → List ViewPB → ViewPB

/-- The id field of a ViewPB. -/
def ViewPB.id : ViewPB → String
  | ViewPB.mk i _ _ _ => i

/-- The name field of a ViewPB. -/
def ViewPB.name : ViewPB → String
  | ViewPB.mk _ n _ _ => n

/-- The create_time field of a ViewPB. -/
def ViewPB.createTime : ViewPB → Int
  | ViewPB.mk _ _ t _ => t

/-- The child_views field of a ViewPB. -/
def ViewPB.childViews : ViewPB → List ViewPB
  | ViewPB.mk _ _ _ c => c

/-- Modelled from the spec: the entities-crate converter
view_pb_without_child_views is outside the analysed slice; it serialises a
view with an empty child_views list, whatever children the view has in the
tree. -/
def view_pb_without_child_views (v : View) : ViewPB :=
  ViewPB.mk v.id v.name v.createdAt []

/-- WorkspacePB: serialised workspace with its top-level views. -/
structure WorkspacePB : Type where
  id : String
  name : String
  views : List ViewPB
  createTime : Int

/-- Modelled from the spec: the From<(Workspace, Vec<View>)> conversion for
WorkspacePB (entities crate, outside the analysed slice); each view is
serialised without child views. -/
def into_workspace_pb (w : Workspace) (views : List View) : WorkspacePB :=
  ⟨w.id, w.name, views.map view_pb_without_child_views, w.createdAt⟩

/-- RepeatedViewPB payload: a list of serialised views. -/
structure RepeatedViewPB : Type where
  items : List ViewPB

/-- WorkspaceIdPB payload: carries only a workspace id string (note: no count
or limit field of any kind). -/
structure WorkspaceIdPB : Type where
  value : String
deriving DecidableEq

/-- ViewIdPB payload: a single view id. -/
structure ViewIdPB : Type where
  value : String
deriving DecidableEq

/-- RepeatedViewIdPB payload: a list of view ids. -/
structure RepeatedViewIdPB : Type where
  items : List String
deriving DecidableEq

/-- TrashIdPB payload: a single trash id. -/
structure TrashIdPB : Type where
  id : String
deriving DecidableEq

/-- RepeatedTrashIdPB payload: a list of trash ids. -/
structure RepeatedTrashIdPB : Type where
  items : List TrashIdPB
deriving DecidableEq

/-- CreateWorkspacePayloadPB payload. -/
structure CreateWorkspacePayloadPB : Type where
  name : String
  desc : String
deriving DecidableEq

/-- CreateWorkspaceParams, produced from the payload by a fallible
conversion. -/
structure CreateWorkspaceParams : Type where
  name : String
  desc : String
deriving DecidableEq

/-- CreateViewPayloadPB payload (fields the handlers use). -/
structure CreateViewPayloadPB : Type where
  parentViewId : String
  name : String
  setAsCurrent : Bool
deriving DecidableEq

/-- CreateOrphanViewPayloadPB payload. -/
structure CreateOrphanViewPayloadPB : Type where
  viewId : String
  name : String
deriving DecidableEq

/-- CreateViewParams, produced from either creation payload by a fallible
conversion; `setAsCurrent` drives the set-current step of the handlers. -/
structure CreateViewParams : Type where
  parentViewId : String
  name : String
  setAsCurrent : Bool
deriving DecidableEq

/-- MoveViewPayloadPB payload. -/
structure MoveViewPayloadPB : Type where
  viewId : String
  fromIndex : Int
  toIndex : Int
deriving DecidableEq

/-- MoveViewParams, produced from the payload by a fallible conversion. -/
structure MoveViewParams : Type where
  viewId : String
  fromIndex : Nat
  toIndex : Nat
deriving DecidableEq

/-- FavoriteItem: an entry of the favorites ledger (the id of the favorited
view). -/
structure FavoriteItem : Type where
  id : String
deriving DecidableEq

/-- FolderSnapshotPB: one serialised snapshot. -/
structure FolderSnapshotPB : Type where
  data : String
deriving DecidableEq

/-- RepeatedFolderSnapshotPB payload: a list of snapshots. -/
structure RepeatedFolderSnapshotPB : Type where
  items : List FolderSnapshotPB
deriving DecidableEq

/-- The interface of the FolderManager as used by the embedded handlers.  The
manager's own implementation is outside the analysed slice, so each operation
is an abstract function over a state `σ`; mutating operations return a result
together with the successor state (also on failure), reads are pure. -/
structure FolderManager (σ : Type) : Type where
  createWorkspace : CreateWorkspaceParams → σ → Except FlowyError Workspace × σ
  getViewsBelongTo : String → σ → Except FlowyError (List View) × σ
  openWorkspace : String → σ → Except FlowyError Workspace × σ
  getWorkspaceViews : String → σ → Except FlowyError (List View) × σ
  createViewWithParams : CreateViewParams → σ → Except FlowyError View × σ
  createOrphanViewWithParams : CreateViewParams → σ → Except FlowyError View × σ
  setCurrentView : String → σ → Except FlowyError Unit × σ
  moveViewToTrash : String → σ → Except FlowyError Unit × σ
  toggleFavorites : String → σ → Except FlowyError Unit × σ
  closeView : String → σ → Except FlowyError Unit × σ
  moveView : String → Nat → Nat → σ → Except FlowyError Unit × σ
  duplicateView : String → σ → Except FlowyError Unit × σ
  getAllFavorites : σ → List FavoriteItem
  getViewPb : String → σ → Except FlowyError ViewPB
  restoreTrash : String → σ → Except FlowyError Unit × σ
  deleteTrash : String → σ → Except FlowyError Unit × σ
  getFolderSnapshots : String → Nat → σ → Except FlowyError (List FolderSnapshotPB)

/-- The error produced when the weak handle to the folder manager fails to
upgrade (source line 15). -/
def dropped_folder_error : FlowyError :=
  FlowyError.internal.with_context ("The folder manager is already dropped")

/-- upgrade_folder: upgrade the weak reference to the FolderManager, failing
with FlowyError::internal() and the fixed context message when the manager has
been dropped (source lines 10-17). -/
def upgrade_folder {σ : Type} (folder_manager : Option (FolderManager σ)) :
    Except FlowyError (FolderManager σ) :=
  match folder_manager with
  | none => Except.error dropped_folder_error
  | some f => Except.ok f

/-- create_workspace_handler (source lines 20-39): upgrade the handle, convert
the payload, create the workspace, fetch its views and serialise each without
child views into the returned WorkspacePB. -/
def create_workspace_handler {σ : Type}
    (try_into_ws : CreateWorkspacePayloadPB → Except FlowyError CreateWorkspaceParams)
    (data : CreateWorkspacePayloadPB)
    (folder : Option (FolderManager σ)) (s : σ) :
    Except FlowyError WorkspacePB × σ :=
  match upgrade_folder folder with
  | Except.error e => (Except.error e, s)
  | Except.ok f =>
    match try_into_ws data with
    | Except.error e => (Except.error e, s)
    | Except.ok params =>
      match f.createWorkspace params s with
      | (Except.error e, s1) => (Except.error e, s1)
      | (Except.ok workspace, s1) =>
        match f.getViewsBelongTo workspace.id s1 with
        | (Except.error e, s2) => (Except.error e, s2)
        | (Except.ok childViews, s2) =>
          (Except.ok ⟨workspace.id, workspace.name,
            childViews.map view_pb_without_child_views, workspace.createdAt⟩, s2)

/-- open_workspace_handler (source lines 52-66): reject an empty workspace id
before touching the manager; otherwise open the workspace, fetch its views and
serialise. -/
def open_workspace_handler {σ : Type} (data : WorkspaceIdPB)
    (folder : Option (FolderManager σ)) (s : σ) :
    Except FlowyError WorkspacePB × σ :=
  match upgrade_folder folder with
  | Except.error e => (Except.error e, s)
  | Except.ok f =>
    let workspace_id := data.value
    if workspace_id.isEmpty then
      (Except.error (FlowyError.workspace_id.with_context
        ("workspace id should not be empty")), s)
    else
      match f.openWorkspace workspace_id s with
      | (Except.error e, s1) => (Except.error e, s1)
      | (Except.ok workspace, s1) =>
        match f.getWorkspaceViews workspace_id s1 with
        | (Except.error e, s2) => (Except.error e, s2)
        | (Except.ok views, s2) => (Except.ok (into_workspace_pb workspace views), s2)

/-- create_view_handler (source lines 92-104): convert the payload, create the
view; when the params carry set_as_current the set-current result is discarded
with a let-underscore; the created view is returned serialised without child
views. -/
def create_view_handler {σ : Type}
    (try_into_view : CreateViewPayloadPB → Except FlowyError CreateViewParams)
    (data : CreateViewPayloadPB)
    (folder : Option (FolderManager σ)) (s : σ) :
    Except FlowyError ViewPB × σ :=
  match upgrade_folder folder with
  | Except.error e => (Except.error e, s)
  | Except.ok f =>
    match try_into_view data with
    | Except.error e => (Except.error e, s)
    | Except.ok params =>
      let set_as_current := params.setAsCurrent
      match f.createViewWithParams params s with
      | (Except.error e, s1) => (Except.error e, s1)
      | (Except.ok view, s1) =>
        if set_as_current then
          (Except.ok (view_pb_without_child_views view),
            (f.setCurrentView view.id s1).2)
        else
          (Except.ok (view_pb_without_child_views view), s1)

/-- create_orphan_view_handler (source lines 106-118): same shape as
create_view_handler, calling create_orphan_view_with_params. -/
def create_orphan_view_handler {σ : Type}
    (try_into_orphan : CreateOrphanViewPayloadPB → Except FlowyError CreateViewParams)
    (data : CreateOrphanViewPayloadPB)
    (folder : Option (FolderManager σ)) (s : σ) :
    Except FlowyError ViewPB × σ :=
  match upgrade_folder folder with
  | Except.error e => (Except.error e, s)
  | Except.ok f =>
    match try_into_orphan data with
    | Except.error e => (Except.error e, s)
    | Except.ok params =>
      let set_as_current := params.setAsCurrent
      match f.createOrphanViewWithParams params s with
      | (Except.error e, s1) => (Except.error e, s1)
      | (Except.ok view, s1) =>
        if set_as_current then
          (Except.ok (view_pb_without_child_views view),
            (f.setCurrentView view.id s1).2)
        else
          (Except.ok (view_pb_without_child_views view), s1)

/-- delete_view_handler (source lines 152-162): move every listed view to
trash in order, discarding each per-item result, and return success. -/
def delete_view_handler {σ : Type} (data : RepeatedViewIdPB)
    (folder : Option (FolderManager σ)) (s : σ) :
    Except FlowyError Unit × σ :=
  match upgrade_folder folder with
  | Except.error e => (Except.error e, s)
  | Except.ok f =>
    (Except.ok (),
      data.items.foldl (fun st view_id => (f.moveViewToTrash view_id st).2) s)

/-- toggle_favorites_handler (source lines 164-174): toggle every listed view
in order, discarding each per-item result, and return success. -/
def toggle_favorites_handler {σ : Type} (data : RepeatedViewIdPB)
    (folder : Option (FolderManager σ)) (s : σ) :
    Except FlowyError Unit × σ :=
  match upgrade_folder folder with
  | Except.error e => (Except.error e, s)
  | Except.ok f =>
    (Except.ok (),
      data.items.foldl (fun st view_id => (f.toggleFavorites view_id st).2) s)

/-- set_latest_view_handler (source lines 176-184): call set_current_view,
discard its result with a let-underscore, and return success. -/
def set_latest_view_handler {σ : Type} (data : ViewIdPB)
    (folder : Option (FolderManager σ)) (s : σ) :
    Except FlowyError Unit × σ :=
  match upgrade_folder folder with
  | Except.error e => (Except.error e, s)
  | Except.ok f => (Except.ok (), (f.setCurrentView data.value s).2)

/-- close_view_handler (source lines 186-194): call close_view, discard its
result with a let-underscore, and return success. -/
def close_view_handler {σ : Type} (data : ViewIdPB)
    (folder : Option (FolderManager σ)) (s : σ) :
    Except FlowyError Unit × σ :=
  match upgrade_folder folder with
  | Except.error e => (Except.error e, s)
  | Except.ok f => (Except.ok (), (f.closeView data.value s).2)

/-- move_view_handler (source lines 197-207): convert the payload and
propagate any error of the underlying move_view with the question-mark
operator. -/
def move_view_handler {σ : Type}
    (try_into_move : MoveViewPayloadPB → Except FlowyError MoveViewParams)
    (data : MoveViewPayloadPB)
    (folder : Option (FolderManager σ)) (s : σ) :
    Except FlowyError Unit × σ :=
  match upgrade_folder folder with
  | Except.error e => (Except.error e, s)
  | Except.ok f =>
    match try_into_move data with
    | Except.error e => (Except.error e, s)
    | Except.ok params =>
      match f.moveView params.viewId params.fromIndex params.toIndex s with
      | (Except.error e, s1) => (Except.error e, s1)
      | (Except.ok _, s1) => (Except.ok (), s1)

/-- duplicate_view_handler (source lines 222-230): propagate any error of the
underlying duplicate_view with the question-mark operator. -/
def duplicate_view_handler {σ : Type} (data : ViewPB)
    (folder : Option (FolderManager σ)) (s : σ) :
    Except FlowyError Unit × σ :=
  match upgrade_folder folder with
  | Except.error e => (Except.error e, s)
  | Except.ok f =>
    match f.duplicateView data.id s with
    | (Except.error e, s1) => (Except.error e, s1)
    | (Except.ok _, s1) => (Except.ok (), s1)

/-- read_favorites_handler (source lines 233-245): list all favorite items,
keep each one whose view id still resolves through get_view_pb, silently skip
the rest, and always succeed. -/
def read_favorites_handler {σ : Type}
    (folder : Option (FolderManager σ)) (s : σ) :
    Except FlowyError RepeatedViewPB :=
  match upgrade_folder folder with
  | Except.error e => Except.error e
  | Except.ok f =>
    let favorite_items := f.getAllFavorites s
    let views := favorite_items.foldl (fun acc item =>
      match f.getViewPb item.id s with
      | Except.ok view => acc ++ [view]
      | Except.error _ => acc) []
    Except.ok ⟨views⟩

/-- putback_trash_handler (source lines 256-263): call restore_trash, whose
outcome is not inspected, and return success unconditionally. -/
def putback_trash_handler {σ : Type} (identifier : TrashIdPB)
    (folder : Option (FolderManager σ)) (s : σ) :
    Except FlowyError Unit × σ :=
  match upgrade_folder folder with
  | Except.error e => (Except.error e, s)
  | Except.ok f => (Except.ok (), (f.restoreTrash identifier.id s).2)

/-- delete_trash_handler (source lines 266-276): permanently delete every
listed trash id in order, discarding each per-item result, and return
success. -/
def delete_trash_handler {σ : Type} (identifiers : RepeatedTrashIdPB)
    (folder : Option (FolderManager σ)) (s : σ) :
    Except FlowyError Unit × σ :=
  match upgrade_folder folder with
  | Except.error e => (Except.error e, s)
  | Except.ok f =>
    (Except.ok (),
      identifiers.items.foldl (fun st trash_id => (f.deleteTrash trash_id.id st).2) s)

/-- get_folder_snapshots_handler (source lines 308-316): fetch snapshots for
the given workspace id, passing the literal constant 10 as the limit (the
payload has no count field). -/
def get_folder_snapshots_handler {σ : Type} (data : WorkspaceIdPB)
    (folder : Option (FolderManager σ)) (s : σ) :
    Except FlowyError RepeatedFolderSnapshotPB :=
  match upgrade_folder folder with
  | Except.error e => Except.error e
  | Except.ok f =>
    match f.getFolderSnapshots data.value 10 s with
    | Except.error e => Except.error e
    | Except.ok snapshots => Except.ok ⟨snapshots⟩

/-- Minimal concrete manager state used to instantiate the abstract interface:
the set of existing workspaces and the ids currently in trash. -/
structure SpecState : Type where
  workspaces : List Workspace
  trash : List String
deriving DecidableEq

/-- Modelled from the spec: §4.6 — open_workspace fails with NotFound when the
workspace does not exist, otherwise returns the workspace. -/
def spec_open_workspace (wid : String) (s : SpecState) :
    Except FlowyError Workspace × SpecState :=
  match s.workspaces.find? (fun w => w.id == wid) with
  | some w => (Except.ok w, s)
  | none =>
    (Except.error (FlowyError.record_not_found.with_context
      ("workspace not found")), s)

/-- Modelled from the spec: §4.2 — restore(id) removes the trash entry when
the id is in trash, and fails with NotFound when it is not. -/
def spec_restore_trash (tid : String) (s : SpecState) :
    Except FlowyError Unit × SpecState :=
  if s.trash.contains tid then
    (Except.ok (), ⟨s.workspaces, s.trash.erase tid⟩)
  else
    (Except.error FlowyError.record_not_found, s)

/-- An all-trivial manager over an arbitrary state, used as the base of the
concrete instantiations below: every operation succeeds with a fixed result
and leaves the state unchanged. -/
def baseManager (σ : Type) : FolderManager σ where
  createWorkspace := fun p s => (Except.ok ⟨"workspace-id", p.name, 0⟩, s)
  getViewsBelongTo := fun _ s => (Except.ok [], s)
  openWorkspace := fun _ s => (Except.ok ⟨"workspace-id", "", 0⟩, s)
  getWorkspaceViews := fun _ s => (Except.ok [], s)
  createViewWithParams := fun p s => (Except.ok ⟨"view-id", p.name, 0, []⟩, s)
  createOrphanViewWithParams := fun p s => (Except.ok ⟨"view-id", p.name, 0, []⟩, s)
  setCurrentView := fun _ s => (Except.ok (), s)
  moveViewToTrash := fun _ s => (Except.ok (), s)
  toggleFavorites := fun _ s => (Except.ok (), s)
  closeView := fun _ s => (Except.ok (), s)
  moveView := fun _ _ _ s => (Except.ok (), s)
  duplicateView := fun _ s => (Except.ok (), s)
  getAllFavorites := fun _ => []
  getViewPb := fun _ _ => Except.error FlowyError.record_not_found
  restoreTrash := fun _ s => (Except.ok (), s)
  deleteTrash := fun _ s => (Except.ok (), s)
  getFolderSnapshots := fun _ _ _ => Except.ok []

/-- The spec-modelled concrete manager over SpecState: workspace opening and
trash restoration follow the spec, the remaining operations are trivial. -/
def specFolderManager : FolderManager SpecState :=
  { baseManager SpecState with
    openWorkspace := spec_open_workspace
    restoreTrash := spec_restore_trash }

/-- Instrumentation combinator: run the given per-id operation on the first
state component and append the id to the trace in the second component, so
that the trace records exactly which ids an operation was attempted on, in
order, whatever the per-id results are. -/
def with_trace {σ : Type} (m : String → σ → Except FlowyError Unit × σ)
    (vid : String) (st : σ × List String) :
    Except FlowyError Unit × (σ × List String) :=
  ((m vid st.1).1, ((m vid st.1).2, st.2 ++ [vid]))

/-- A per-id operation that always fails, used to instantiate the best-effort
batch theorems at a worst case. -/
def always_fails (vid : String) (u : Unit) : Except FlowyError Unit × Unit :=
  (Except.error (FlowyError.record_not_found.with_context vid), u)

/-- A concrete manager whose batch operations all fail on every item while a
trace records the attempts. -/
def tracedManager : FolderManager (Unit × List String) :=
  { baseManager (Unit × List String) with
    moveViewToTrash := with_trace always_fails
    toggleFavorites := with_trace always_fails
    deleteTrash := with_trace always_fails }

/-- A probe manager whose snapshot retrieval succeeds only when asked for
exactly 10 snapshots, revealing which limit the handler passes. -/
def probeSnapshotManager : FolderManager Unit :=
  { baseManager Unit with
    getFolderSnapshots := fun _ n _ =>
      if n == 10 then Except.ok [⟨"ten"⟩]
      else Except.error FlowyError.record_not_found }

/-- A concrete manager whose set-current and close operations fail, used to
instantiate the best-effort theorems for the active-view handlers. -/
def failCurrentManager : FolderManager Unit :=
  { baseManager Unit with
    setCurrentView := fun vid s =>
      (Except.error (FlowyError.record_not_found.with_context vid), s)
    closeView := fun vid s =>
      (Except.error (FlowyError.record_not_found.with_context vid), s) }

/-- A concrete manager whose move, duplicate and open-workspace operations
fail, used to instantiate the fail-loudly theorem. -/
def failOpsManager : FolderManager Unit :=
  { baseManager Unit with
    moveView := fun _ _ _ s => (Except.error (FlowyError.record_not_found.with_context ("move")), s)
    duplicateView := fun _ s => (Except.error (FlowyError.record_not_found.with_context ("dup")), s)
    openWorkspace := fun _ s => (Except.error (FlowyError.record_not_found.with_context ("open")), s) }

/-- A concrete manager whose views have children in the tree, used to check
that serialisation still drops them. -/
def childViewsManager : FolderManager Unit :=
  { baseManager Unit with
    createViewWithParams := fun p s => (Except.ok ⟨"view-id", p.name, 0, ["c1", "c2"]⟩, s)
    createOrphanViewWithParams := fun p s => (Except.ok ⟨"view-id", p.name, 0, ["c1"]⟩, s)
    getViewsBelongTo := fun _ s => (Except.ok [⟨"v1", "a", 0, ["c1"]⟩, ⟨"v2", "b", 0, []⟩], s) }

/-- A concrete manager with favorites, one of which no longer resolves. -/
def favoritesManager : FolderManager Unit :=
  { baseManager Unit with
    getAllFavorites := fun _ => [⟨"live"⟩, ⟨"purged"⟩]
    getViewPb := fun vid _ =>
      if vid == "live" then Except.ok (ViewPB.mk "live" "n" 0 [])
      else Except.error FlowyError.record_not_found }

/-- A manager that returns the same single snapshot whatever limit is asked
for; it agrees with the probe manager exactly at limit 10. -/
def constSnapshotManager : FolderManager Unit :=
  { baseManager Unit with
    getFolderSnapshots := fun _ _ _ => Except.ok [⟨"ten"⟩] }

/-- A concrete always-succeeding workspace-payload conversion for the
instantiations. -/
def ws_conv (p : CreateWorkspacePayloadPB) : Except FlowyError CreateWorkspaceParams :=
  Except.ok ⟨p.name, p.desc⟩

/-- A concrete view-payload conversion carrying the payload fields over. -/
def view_conv (p : CreateViewPayloadPB) : Except FlowyError CreateViewParams :=
  Except.ok ⟨p.parentViewId, p.name, p.setAsCurrent⟩

/-- A concrete orphan-view-payload conversion that does not request
set-as-current. -/
def orphan_conv_quiet (p : CreateOrphanViewPayloadPB) : Except FlowyError CreateViewParams :=
  Except.ok ⟨"", p.name, false⟩

/-- A concrete orphan-view-payload conversion that requests set-as-current. -/
def orphan_conv_current (p : CreateOrphanViewPayloadPB) : Except FlowyError CreateViewParams :=
  Except.ok ⟨"", p.name, true⟩

/-- A concrete move-payload conversion. -/
def move_conv (p : MoveViewPayloadPB) : Except FlowyError MoveViewParams :=
  Except.ok ⟨p.viewId, 0, 0⟩

/-- A non-empty string has isEmpty false. -/
theorem string_isEmpty_false_of_ne {s : String} (h : s ≠ "") : s.isEmpty = false := by
  cases hb : s.isEmpty
  · rfl
  · exact absurd ((String.isEmpty_iff s).mp hb) h

/-- The trace component of a fold of traced operations records every key in
order, whatever the per-key results are. -/
theorem foldl_with_trace_snd {σ β : Type} (m : String → σ → Except FlowyError Unit × σ)
    (key : β → String) :
    ∀ (l : List β) (s : σ) (tr : List String),
      (l.foldl (fun st b => (with_trace m (key b) st).2) (s, tr)).2 = tr ++ l.map key := by
  intro l
  induction l with
  | nil => intro s tr; simp
  | cons a t ih =>
    intro s tr
    show (t.foldl _ ((m (key a) s).2, tr ++ [key a])).2 = tr ++ (key a :: t.map key)
    rw [ih]
    simp

/-- The favorites accumulation loop equals a filterMap over the favorite
items. -/
theorem foldl_favorites_eq_filterMap {σ : Type} (f : FolderManager σ) (s : σ) :
    ∀ (l : List FavoriteItem) (acc : List ViewPB),
      l.foldl (fun acc item =>
        match f.getViewPb item.id s with
        | Except.ok view => acc ++ [view]
        | Except.error _ => acc) acc
      = acc ++ l.filterMap (fun item => (f.getViewPb item.id s).toOption) := by
  intro l
  induction l with
  | nil => intro acc; simp
  | cons a t ih =>
    intro acc
    cases hv : f.getViewPb a.id s with
    | error e =>
      show t.foldl _ (match f.getViewPb a.id s with
        | Except.ok view => acc ++ [view]
        | Except.error _ => acc) = _
      rw [hv, ih]
      simp [List.filterMap_cons, hv, Except.toOption]
    | ok v =>
      show t.foldl _ (match f.getViewPb a.id s with
        | Except.ok view => acc ++ [view]
        | Except.error _ => acc) = _
      rw [hv, ih]
      simp [List.filterMap_cons, hv, Except.toOption]

/-- An Except converts to some value exactly when it is that ok value. -/
theorem except_toOption_eq_some {ε α : Type} (e : Except ε α) (a : α) :
    e.toOption = some a ↔ e = Except.ok a := by
  cases e <;> simp [Except.toOption]

/-- C1 (amended): get_folder_snapshots_handler always requests exactly 10
snapshots: its output depends on the manager only through the snapshot
retrieval at limit 10, because the request payload (WorkspaceIdPB) carries no
count field and the handler passes the literal constant 10. -/
theorem C1_snapshot_limit_is_constant_ten :
    ∀ (σ : Type) (f g : FolderManager σ) (d : WorkspaceIdPB) (s : σ),
      f.getFolderSnapshots d.value 10 s = g.getFolderSnapshots d.value 10 s →
      get_folder_snapshots_handler d (some f) s
        = get_folder_snapshots_handler d (some g) s := by
  intro σ f g d s h
  simp only [get_folder_snapshots_handler, upgrade_folder]
  rw [h]

/-- C1 witness: two managers that agree only at limit 10 give the same handler
output. -/
theorem C1_snapshot_limit_is_constant_ten_witness :
    get_folder_snapshots_handler ⟨"w"⟩ (some probeSnapshotManager) ()
      = get_folder_snapshots_handler ⟨"w"⟩ (some constSnapshotManager) () :=
  C1_snapshot_limit_is_constant_ten Unit probeSnapshotManager
    constSnapshotManager ⟨"w"⟩ () rfl

/-- C1 counterexample: the snapshot-retrieval limit is not supplied by the
caller.  A probe manager that succeeds only when asked for exactly 10
snapshots accepts the handler's request, although the request payload ⟨"w"⟩
contains no count at all: the handler hardcodes 10 rather than honoring a
caller-supplied limit. -/
theorem C1_snapshot_limit_counterexample :
    get_folder_snapshots_handler ⟨"w"⟩ (some probeSnapshotManager) ()
      = Except.ok ⟨[⟨"ten"⟩]⟩
    ∧ (∀ n : Nat, n ≠ 10 →
        probeSnapshotManager.getFolderSnapshots "w" n ()
          = Except.error FlowyError.record_not_found) := by
  constructor
  · rfl
  · intro n hn
    simp only [probeSnapshotManager, baseManager]
    rw [if_neg]
    simp [hn]

/-- C2 (amended): every embedded handler invoked after the owning
FolderManager has been dropped fails immediately (state unchanged, no
blocking) with the error built by FlowyError::internal() and the context "The
folder manager is already dropped" — whose kind is Internal, not a distinct
Gone/Unavailable kind. -/
theorem C2_dropped_manager_fails_internal :
    (∀ (σ : Type) (c : CreateWorkspacePayloadPB → Except FlowyError CreateWorkspaceParams)
        (d : CreateWorkspacePayloadPB) (s : σ),
        create_workspace_handler c d none s = (Except.error dropped_folder_error, s))
    ∧ (∀ (σ : Type) (d : WorkspaceIdPB) (s : σ),
        open_workspace_handler d (none : Option (FolderManager σ)) s
          = (Except.error dropped_folder_error, s))
    ∧ (∀ (σ : Type) (c : CreateViewPayloadPB → Except FlowyError CreateViewParams)
        (d : CreateViewPayloadPB) (s : σ),
        create_view_handler c d none s = (Except.error dropped_folder_error, s))
    ∧ (∀ (σ : Type) (c : CreateOrphanViewPayloadPB → Except FlowyError CreateViewParams)
        (d : CreateOrphanViewPayloadPB) (s : σ),
        create_orphan_view_handler c d none s = (Except.error dropped_folder_error, s))
    ∧ (∀ (σ : Type) (d : RepeatedViewIdPB) (s : σ),
        delete_view_handler d (none : Option (FolderManager σ)) s
          = (Except.error dropped_folder_error, s))
    ∧ (∀ (σ : Type) (d : RepeatedViewIdPB) (s : σ),
        toggle_favorites_handler d (none : Option (FolderManager σ)) s
          = (Except.error dropped_folder_error, s))
    ∧ (∀ (σ : Type) (d : ViewIdPB) (s : σ),
        set_latest_view_handler d (none : Option (FolderManager σ)) s
          = (Except.error dropped_folder_error, s))
    ∧ (∀ (σ : Type) (d : ViewIdPB) (s : σ),
        close_view_handler d (none : Option (FolderManager σ)) s
          = (Except.error dropped_folder_error, s))
    ∧ (∀ (σ : Type) (c : MoveViewPayloadPB → Except FlowyError MoveViewParams)
        (d : MoveViewPayloadPB) (s : σ),
        move_view_handler c d none s = (Except.error dropped_folder_error, s))
    ∧ (∀ (σ : Type) (d : ViewPB) (s : σ),
        duplicate_view_handler d (none : Option (FolderManager σ)) s
          = (Except.error dropped_folder_error, s))
    ∧ (∀ (σ : Type) (s : σ),
        read_favorites_handler (none : Option (FolderManager σ)) s
          = Except.error dropped_folder_error)
    ∧ (∀ (σ : Type) (d : TrashIdPB) (s : σ),
        putback_trash_handler d (none : Option (FolderManager σ)) s
          = (Except.error dropped_folder_error, s))
    ∧ (∀ (σ : Type) (d : RepeatedTrashIdPB) (s : σ),
        delete_trash_handler d (none : Option (FolderManager σ)) s
          = (Except.error dropped_folder_error, s))
    ∧ (∀ (σ : Type) (d : WorkspaceIdPB) (s : σ),
        get_folder_snapshots_handler d (none : Option (FolderManager σ)) s
          = Except.error dropped_folder_error)
    ∧ dropped_folder_error.code = ErrorCode.internal := by
  refine ⟨?_, ?_, ?_, ?_, ?_, ?_, ?_, ?_, ?_, ?_, ?_, ?_, ?_, ?_, ?_⟩ <;>
    first
      | rfl
      | (intros; rfl)

/-- C2 counterexample: the claim as stated says the failure carries a
Gone/Unavailable error kind; on the code the upgrade failure is built with
FlowyError::internal(), so the kind is Internal, a different kind than
Gone. -/
theorem C2_dropped_manager_gone_counterexample :
    (open_workspace_handler ⟨"w"⟩ (none : Option (FolderManager SpecState)) ⟨[], []⟩).1
      = Except.error ⟨ErrorCode.internal, "The folder manager is already dropped"⟩
    ∧ ErrorCode.internal ≠ ErrorCode.gone := by
  exact ⟨rfl, by decide⟩

/-- C3: open_workspace_handler rejects an empty workspace id with an
InvalidOperation-kind error before invoking any manager operation (the state
is returned unchanged for every possible manager), and on the spec-modelled
manager a non-empty id naming no existing workspace fails with NotFound. -/
theorem C3_open_workspace_validates_id :
    (∀ (σ : Type) (f : FolderManager σ) (d : WorkspaceIdPB) (s : σ),
        d.value = "" →
        open_workspace_handler d (some f) s
          = (Except.error ⟨ErrorCode.invalidOperation,
              "workspace id should not be empty"⟩, s))
    ∧ (∀ (d : WorkspaceIdPB) (s : SpecState),
        d.value ≠ "" → (∀ w ∈ s.workspaces, w.id ≠ d.value) →
        (open_workspace_handler d (some specFolderManager) s).1
          = Except.error ⟨ErrorCode.notFound, "workspace not found"⟩) := by
  constructor
  · intro σ f d s h
    simp only [open_workspace_handler, upgrade_folder]
    rw [h]
    rfl
  · intro d s h1 h2
    have hfind : s.workspaces.find? (fun w => w.id == d.value) = none := by
      apply List.find?_eq_none.mpr
      intro x hx
      simpa using h2 x hx
    simp only [open_workspace_handler, upgrade_folder,
      string_isEmpty_false_of_ne h1, specFolderManager, baseManager,
      spec_open_workspace, hfind]
    rfl

/-- C3 witness: the empty id is rejected as InvalidOperation on a concrete
manager, and the unknown id "nope" is NotFound on the empty spec state. -/
theorem C3_open_workspace_validates_id_witness :
    open_workspace_handler ⟨""⟩ (some (baseManager Unit)) ()
      = (Except.error ⟨ErrorCode.invalidOperation,
          "workspace id should not be empty"⟩, ())
    ∧ (open_workspace_handler ⟨"nope"⟩ (some specFolderManager) ⟨[], []⟩).1
        = Except.error ⟨ErrorCode.notFound, "workspace not found"⟩ :=
  ⟨C3_open_workspace_validates_id.1 Unit (baseManager Unit) ⟨""⟩ () rfl,
   C3_open_workspace_validates_id.2 ⟨"nope"⟩ ⟨[], []⟩ (by decide)
     (by intro w hw; cases hw)⟩

/-- C4: the batch handlers are best-effort: with a live manager they return
overall success for every list of ids and every manager behaviour, and when
the per-item operation is instrumented to record the ids it is attempted on,
the recorded trace is exactly the full input list in order — every item is
attempted and no per-item failure stops the loop (the instrumented operation
may fail on every single item). -/
theorem C4_batch_handlers_best_effort :
    (∀ (σ : Type) (f : FolderManager σ) (d : RepeatedViewIdPB) (s : σ),
        (delete_view_handler d (some f) s).1 = Except.ok ())
    ∧ (∀ (σ : Type) (f : FolderManager σ) (d : RepeatedViewIdPB) (s : σ),
        (toggle_favorites_handler d (some f) s).1 = Except.ok ())
    ∧ (∀ (σ : Type) (f : FolderManager σ) (d : RepeatedTrashIdPB) (s : σ),
        (delete_trash_handler d (some f) s).1 = Except.ok ())
    ∧ (∀ (σ : Type) (m : String → σ → Except FlowyError Unit × σ)
        (f : FolderManager (σ × List String)),
        f.moveViewToTrash = with_trace m →
        ∀ (d : RepeatedViewIdPB) (s : σ) (tr : List String),
          ((delete_view_handler d (some f) (s, tr)).2).2 = tr ++ d.items)
    ∧ (∀ (σ : Type) (m : String → σ → Except FlowyError Unit × σ)
        (f : FolderManager (σ × List String)),
        f.toggleFavorites = with_trace m →
        ∀ (d : RepeatedViewIdPB) (s : σ) (tr : List String),
          ((toggle_favorites_handler d (some f) (s, tr)).2).2 = tr ++ d.items)
    ∧ (∀ (σ : Type) (m : String → σ → Except FlowyError Unit × σ)
        (f : FolderManager (σ × List String)),
        f.deleteTrash = with_trace m →
        ∀ (d : RepeatedTrashIdPB) (s : σ) (tr : List String),
          ((delete_trash_handler d (some f) (s, tr)).2).2
            = tr ++ d.items.map TrashIdPB.id) := by
  refine ⟨?_, ?_, ?_, ?_, ?_, ?_⟩
  · intro σ f d s; rfl
  · intro σ f d s; rfl
  · intro σ f d s; rfl
  · intro σ m f hf d s tr
    simp only [delete_view_handler, upgrade_folder, hf]
    simpa using foldl_with_trace_snd m (fun x => x) d.items s tr
  · intro σ m f hf d s tr
    simp only [toggle_favorites_handler, upgrade_folder, hf]
    simpa using foldl_with_trace_snd m (fun x => x) d.items s tr
  · intro σ m f hf d s tr
    simp only [delete_trash_handler, upgrade_folder, hf]
    exact foldl_with_trace_snd m TrashIdPB.id d.items s tr

/-- C4 witness: on a manager whose batch operations fail on every item, the
three batch handlers still succeed and still attempt every listed id in
order. -/
theorem C4_batch_handlers_best_effort_witness :
    (delete_view_handler ⟨["a", "b"]⟩ (some tracedManager) ((), [])).1 = Except.ok ()
    ∧ ((delete_view_handler ⟨["a", "b"]⟩ (some tracedManager) ((), [])).2).2
        = [] ++ ["a", "b"]
    ∧ ((toggle_favorites_handler ⟨["x"]⟩ (some tracedManager) ((), [])).2).2
        = [] ++ ["x"]
    ∧ ((delete_trash_handler ⟨[⟨"t1"⟩, ⟨"t2"⟩]⟩ (some tracedManager) ((), [])).2).2
        = [] ++ ([⟨"t1"⟩, ⟨"t2"⟩] : List TrashIdPB).map TrashIdPB.id :=
  ⟨C4_batch_handlers_best_effort.1 (Unit × List String) tracedManager ⟨["a", "b"]⟩ ((), []),
   C4_batch_handlers_best_effort.2.2.2.1 Unit always_fails tracedManager rfl
     ⟨["a", "b"]⟩ () [],
   C4_batch_handlers_best_effort.2.2.2.2.1 Unit always_fails tracedManager rfl
     ⟨["x"]⟩ () [],
   C4_batch_handlers_best_effort.2.2.2.2.2 Unit always_fails tracedManager rfl
     ⟨[⟨"t1"⟩, ⟨"t2"⟩]⟩ () []⟩

/-- C5: read_favorites_handler is total on a live manager: it always succeeds,
its result keeps exactly those favorite items whose view id still resolves
(in order), and favorite items whose view no longer resolves are silently
excluded rather than causing an error. -/
theorem C5_read_favorites_total :
    ∀ (σ : Type) (f : FolderManager σ) (s : σ),
      read_favorites_handler (some f) s
        = Except.ok ⟨(f.getAllFavorites s).filterMap
            (fun item => (f.getViewPb item.id s).toOption)⟩
      ∧ (∀ item, item ∈ f.getAllFavorites s → ∀ v, f.getViewPb item.id s = Except.ok v →
          v ∈ (f.getAllFavorites s).filterMap
            (fun item => (f.getViewPb item.id s).toOption))
      ∧ (∀ v, v ∈ (f.getAllFavorites s).filterMap
            (fun item => (f.getViewPb item.id s).toOption) →
          ∃ item, item ∈ f.getAllFavorites s ∧ f.getViewPb item.id s = Except.ok v) := by
  intro σ f s
  refine ⟨?_, ?_, ?_⟩
  · simp only [read_favorites_handler, upgrade_folder]
    rw [foldl_favorites_eq_filterMap f s (f.getAllFavorites s) []]
    rfl
  · intro item hitem v hv
    exact List.mem_filterMap.mpr
      ⟨item, hitem, (except_toOption_eq_some (f.getViewPb item.id s) v).mpr hv⟩
  · intro v hv
    rcases List.mem_filterMap.mp hv with ⟨item, hitem, hsome⟩
    exact ⟨item, hitem, (except_toOption_eq_some (f.getViewPb item.id s) v).mp hsome⟩

/-- C5 witness: on a manager with one live and one purged favorite, the
handler succeeds and the list contains the live view, obtained by applying the
theorem at that concrete manager. -/
theorem C5_read_favorites_total_witness :
    read_favorites_handler (some favoritesManager) ()
      = Except.ok ⟨(favoritesManager.getAllFavorites ()).filterMap
          (fun item => (favoritesManager.getViewPb item.id ()).toOption)⟩
    ∧ ViewPB.mk "live" "n" 0 []
        ∈ (favoritesManager.getAllFavorites ()).filterMap
            (fun item => (favoritesManager.getViewPb item.id ()).toOption) :=
  ⟨(C5_read_favorites_total Unit favoritesManager ()).1,
   (C5_read_favorites_total Unit favoritesManager ()).2.1 ⟨"live"⟩
     (List.mem_cons_self _ _) (ViewPB.mk "live" "n" 0 []) rfl⟩

/-- C6: set_latest_view_handler and close_view_handler return success on a
live manager whatever the underlying set_current/close operation does, and in
particular when that operation fails, the handler still reports success while
keeping the state the failing operation produced. -/
theorem C6_set_and_close_swallow_failure :
    (∀ (σ : Type) (f : FolderManager σ) (d : ViewIdPB) (s : σ),
        (set_latest_view_handler d (some f) s).1 = Except.ok ())
    ∧ (∀ (σ : Type) (f : FolderManager σ) (d : ViewIdPB) (s : σ),
        (close_view_handler d (some f) s).1 = Except.ok ())
    ∧ (∀ (σ : Type) (f : FolderManager σ) (d : ViewIdPB) (s : σ) (e : FlowyError) (s' : σ),
        f.setCurrentView d.value s = (Except.error e, s') →
        set_latest_view_handler d (some f) s = (Except.ok (), s'))
    ∧ (∀ (σ : Type) (f : FolderManager σ) (d : ViewIdPB) (s : σ) (e : FlowyError) (s' : σ),
        f.closeView d.value s = (Except.error e, s') →
        close_view_handler d (some f) s = (Except.ok (), s')) := by
  refine ⟨?_, ?_, ?_, ?_⟩
  · intro σ f d s; rfl
  · intro σ f d s; rfl
  · intro σ f d s e s' h
    simp only [set_latest_view_handler, upgrade_folder, h]
  · intro σ f d s e s' h
    simp only [close_view_handler, upgrade_folder, h]

/-- C6 witness: on a manager whose set-current and close operations fail, both
handlers still return success. -/
theorem C6_set_and_close_swallow_failure_witness :
    set_latest_view_handler ⟨"v"⟩ (some failCurrentManager) () = (Except.ok (), ())
    ∧ close_view_handler ⟨"v"⟩ (some failCurrentManager) () = (Except.ok (), ()) :=
  ⟨C6_set_and_close_swallow_failure.2.2.1 Unit failCurrentManager ⟨"v"⟩ ()
     (FlowyError.record_not_found.with_context ("v")) () rfl,
   C6_set_and_close_swallow_failure.2.2.2 Unit failCurrentManager ⟨"v"⟩ ()
     (FlowyError.record_not_found.with_context ("v")) () rfl⟩

/-- C7 counterexample: restoring "x" from the trash succeeds once and a
second restore of "x" fails with NotFound in the spec-modelled ledger, but
putback_trash_handler on the already-restored state still returns success —
the failure is not observable to the handler's caller, contradicting the
claim as stated. -/
theorem C7_restore_observability_counterexample :
    spec_restore_trash "x" ⟨[], ["x"]⟩ = (Except.ok (), ⟨[], []⟩)
    ∧ spec_restore_trash "x" ⟨[], []⟩
        = (Except.error FlowyError.record_not_found, ⟨[], []⟩)
    ∧ putback_trash_handler ⟨"x"⟩ (some specFolderManager) ⟨[], []⟩
        = (Except.ok (), ⟨[], []⟩) := by
  refine ⟨?_, ?_, ?_⟩ <;> rfl

/-- C7 (amended): in the spec-modelled trash ledger a second restore of an id
whose restore already succeeded fails with NotFound; however
putback_trash_handler discards the restore outcome and returns success
unconditionally for every manager, so that failure is not observable to the
caller of the putback-trash operation. -/
theorem C7_restore_idempotent_unobserved :
    (∀ (s : SpecState) (tid : String) (s' : SpecState),
        s.trash.Nodup → spec_restore_trash tid s = (Except.ok (), s') →
        (spec_restore_trash tid s').1 = Except.error FlowyError.record_not_found)
    ∧ (∀ (σ : Type) (f : FolderManager σ) (d : TrashIdPB) (s : σ),
        (putback_trash_handler d (some f) s).1 = Except.ok ()) := by
  constructor
  · intro s tid s' hnd h
    unfold spec_restore_trash at h
    split at h
    · injection h with h1 h2
      subst h2
      have hmem : tid ∉ s.trash.erase tid := hnd.not_mem_erase
      unfold spec_restore_trash
      rw [if_neg (by simpa using hmem)]
    · exact absurd h (by simp)
  · intro σ f d s
    rfl

/-- C7 witness: the idempotence half applied at the concrete one-element
trash, and the swallow half applied at a concrete manager. -/
theorem C7_restore_idempotent_unobserved_witness :
    (spec_restore_trash "x" ⟨[], []⟩).1 = Except.error FlowyError.record_not_found
    ∧ (putback_trash_handler ⟨"y"⟩ (some (baseManager Unit)) ()).1 = Except.ok () :=
  ⟨C7_restore_idempotent_unobserved.1 ⟨[], ["x"]⟩ "x" ⟨[], []⟩ (by simp) rfl,
   C7_restore_idempotent_unobserved.2 Unit (baseManager Unit) ⟨"y"⟩ ()⟩

/-- C8: the single-item operations fail loudly: whenever the underlying
move/duplicate/open-workspace operation returns an error, the corresponding
handler returns that exact error (and the state the failing operation
produced) to its caller. -/
theorem C8_single_item_ops_fail_loudly :
    (∀ (σ : Type) (f : FolderManager σ)
        (c : MoveViewPayloadPB → Except FlowyError MoveViewParams)
        (d : MoveViewPayloadPB) (s : σ) (p : MoveViewParams) (e : FlowyError) (s' : σ),
        c d = Except.ok p →
        f.moveView p.viewId p.fromIndex p.toIndex s = (Except.error e, s') →
        move_view_handler c d (some f) s = (Except.error e, s'))
    ∧ (∀ (σ : Type) (f : FolderManager σ) (d : ViewPB) (s : σ) (e : FlowyError) (s' : σ),
        f.duplicateView d.id s = (Except.error e, s') →
        duplicate_view_handler d (some f) s = (Except.error e, s'))
    ∧ (∀ (σ : Type) (f : FolderManager σ) (d : WorkspaceIdPB) (s : σ) (e : FlowyError) (s' : σ),
        d.value ≠ "" →
        f.openWorkspace d.value s = (Except.error e, s') →
        open_workspace_handler d (some f) s = (Except.error e, s')) := by
  refine ⟨?_, ?_, ?_⟩
  · intro σ f c d s p e s' h1 h2
    simp only [move_view_handler, upgrade_folder, h1, h2]
  · intro σ f d s e s' h
    simp only [duplicate_view_handler, upgrade_folder, h]
  · intro σ f d s e s' h1 h2
    simp only [open_workspace_handler, upgrade_folder,
      string_isEmpty_false_of_ne h1, h2]
    rfl

/-- C8 witness: on a manager whose move, duplicate and open operations fail,
each handler surfaces the exact underlying error. -/
theorem C8_single_item_ops_fail_loudly_witness :
    move_view_handler move_conv ⟨"v", 0, 0⟩ (some failOpsManager) ()
      = (Except.error (FlowyError.record_not_found.with_context ("move")), ())
    ∧ duplicate_view_handler (ViewPB.mk "v" "" 0 []) (some failOpsManager) ()
        = (Except.error (FlowyError.record_not_found.with_context ("dup")), ())
    ∧ open_workspace_handler ⟨"w"⟩ (some failOpsManager) ()
        = (Except.error (FlowyError.record_not_found.with_context ("open")), ()) :=
  ⟨C8_single_item_ops_fail_loudly.1 Unit failOpsManager move_conv ⟨"v", 0, 0⟩ ()
     ⟨"v", 0, 0⟩ (FlowyError.record_not_found.with_context ("move")) () rfl rfl,
   C8_single_item_ops_fail_loudly.2.1 Unit failOpsManager (ViewPB.mk "v" "" 0 []) ()
     (FlowyError.record_not_found.with_context ("dup")) () rfl,
   C8_single_item_ops_fail_loudly.2.2 Unit failOpsManager ⟨"w"⟩ ()
     (FlowyError.record_not_found.with_context ("open")) () (by decide) rfl⟩

/-- C9: in both view-creation handlers, after a successful creation the
set-current operation matters only when the converted params carry
set_as_current = true: with the flag false the handler returns the created
view and leaves the post-creation state completely untouched (for every
possible manager, so set_current_view is never invoked), and with the flag
true a failing set-current does not fail the call — the handler still returns
the created view, keeping whatever state the failing set-current produced. -/
theorem C9_create_set_current_policy :
    (∀ (σ : Type) (f : FolderManager σ)
        (c : CreateViewPayloadPB → Except FlowyError CreateViewParams)
        (d : CreateViewPayloadPB) (s : σ) (p : CreateViewParams) (v : View) (s1 : σ),
        c d = Except.ok p → p.setAsCurrent = false →
        f.createViewWithParams p s = (Except.ok v, s1) →
        create_view_handler c d (some f) s
          = (Except.ok (view_pb_without_child_views v), s1))
    ∧ (∀ (σ : Type) (f : FolderManager σ)
        (c : CreateViewPayloadPB → Except FlowyError CreateViewParams)
        (d : CreateViewPayloadPB) (s : σ) (p : CreateViewParams) (v : View)
        (s1 : σ) (e : FlowyError) (s2 : σ),
        c d = Except.ok p → p.setAsCurrent = true →
        f.createViewWithParams p s = (Except.ok v, s1) →
        f.setCurrentView v.id s1 = (Except.error e, s2) →
        create_view_handler c d (some f) s
          = (Except.ok (view_pb_without_child_views v), s2))
    ∧ (∀ (σ : Type) (f : FolderManager σ)
        (c : CreateOrphanViewPayloadPB → Except FlowyError CreateViewParams)
        (d : CreateOrphanViewPayloadPB) (s : σ) (p : CreateViewParams) (v : View) (s1 : σ),
        c d = Except.ok p → p.setAsCurrent = false →
        f.createOrphanViewWithParams p s = (Except.ok v, s1) →
        create_orphan_view_handler c d (some f) s
          = (Except.ok (view_pb_without_child_views v), s1))
    ∧ (∀ (σ : Type) (f : FolderManager σ)
        (c : CreateOrphanViewPayloadPB → Except FlowyError CreateViewParams)
        (d : CreateOrphanViewPayloadPB) (s : σ) (p : CreateViewParams) (v : View)
        (s1 : σ) (e : FlowyError) (s2 : σ),
        c d = Except.ok p → p.setAsCurrent = true →
        f.createOrphanViewWithParams p s = (Except.ok v, s1) →
        f.setCurrentView v.id s1 = (Except.error e, s2) →
        create_orphan_view_handler c d (some f) s
          = (Except.ok (view_pb_without_child_views v), s2)) := by
  refine ⟨?_, ?_, ?_, ?_⟩
  · intro σ f c d s p v s1 h1 h2 h3
    simp only [create_view_handler, upgrade_folder, h1, h2, h3]
    rfl
  · intro σ f c d s p v s1 e s2 h1 h2 h3 h4
    simp only [create_view_handler, upgrade_folder, h1, h2, h3, h4]
    rfl
  · intro σ f c d s p v s1 h1 h2 h3
    simp only [create_orphan_view_handler, upgrade_folder, h1, h2, h3]
    rfl
  · intro σ f c d s p v s1 e s2 h1 h2 h3 h4
    simp only [create_orphan_view_handler, upgrade_folder, h1, h2, h3, h4]
    rfl

/-- C9 witness: on a manager whose set-current always fails, creation with the
flag false leaves the state alone, and creation with the flag true still
returns the created view. -/
theorem C9_create_set_current_policy_witness :
    create_view_handler view_conv ⟨"p", "n", false⟩ (some failCurrentManager) ()
      = (Except.ok (view_pb_without_child_views ⟨"view-id", "n", 0, []⟩), ())
    ∧ create_view_handler view_conv ⟨"p", "n", true⟩ (some failCurrentManager) ()
        = (Except.ok (view_pb_without_child_views ⟨"view-id", "n", 0, []⟩), ())
    ∧ create_orphan_view_handler orphan_conv_quiet ⟨"v", "n"⟩ (some failCurrentManager) ()
        = (Except.ok (view_pb_without_child_views ⟨"view-id", "n", 0, []⟩), ())
    ∧ create_orphan_view_handler orphan_conv_current ⟨"v", "n"⟩ (some failCurrentManager) ()
        = (Except.ok (view_pb_without_child_views ⟨"view-id", "n", 0, []⟩), ()) :=
  ⟨C9_create_set_current_policy.1 Unit failCurrentManager view_conv
     ⟨"p", "n", false⟩ () ⟨"p", "n", false⟩ ⟨"view-id", "n", 0, []⟩ () rfl rfl rfl,
   C9_create_set_current_policy.2.1 Unit failCurrentManager view_conv
     ⟨"p", "n", true⟩ () ⟨"p", "n", true⟩ ⟨"view-id", "n", 0, []⟩ ()
     (FlowyError.record_not_found.with_context ("view-id")) () rfl rfl rfl rfl,
   C9_create_set_current_policy.2.2.1 Unit failCurrentManager orphan_conv_quiet
     ⟨"v", "n"⟩ () ⟨"", "n", false⟩ ⟨"view-id", "n", 0, []⟩ () rfl rfl rfl,
   C9_create_set_current_policy.2.2.2 Unit failCurrentManager orphan_conv_current
     ⟨"v", "n"⟩ () ⟨"", "n", true⟩ ⟨"view-id", "n", 0, []⟩ ()
     (FlowyError.record_not_found.with_context ("view-id")) () rfl rfl rfl rfl⟩

/-- C10: every ViewPB returned by the two view-creation handlers has an empty
child_views list, and every view in the views list of the WorkspacePB
returned by create_workspace_handler has an empty child_views list, whatever
children the underlying views have in the tree. -/
theorem C10_created_views_serialised_without_children :
    (∀ (σ : Type) (f : FolderManager σ)
        (c : CreateViewPayloadPB → Except FlowyError CreateViewParams)
        (d : CreateViewPayloadPB) (s : σ) (pb : ViewPB) (s2 : σ),
        create_view_handler c d (some f) s = (Except.ok pb, s2) →
        pb.childViews = [])
    ∧ (∀ (σ : Type) (f : FolderManager σ)
        (c : CreateOrphanViewPayloadPB → Except FlowyError CreateViewParams)
        (d : CreateOrphanViewPayloadPB) (s : σ) (pb : ViewPB) (s2 : σ),
        create_orphan_view_handler c d (some f) s = (Except.ok pb, s2) →
        pb.childViews = [])
    ∧ (∀ (σ : Type) (f : FolderManager σ)
        (c : CreateWorkspacePayloadPB → Except FlowyError CreateWorkspaceParams)
        (d : CreateWorkspacePayloadPB) (s : σ) (w : WorkspacePB) (s2 : σ),
        create_workspace_handler c d (some f) s = (Except.ok w, s2) →
        ∀ v ∈ w.views, v.childViews = []) := by
  refine ⟨?_, ?_, ?_⟩
  · intro σ f c d s pb s2 h
    simp only [create_view_handler, upgrade_folder] at h
    cases hc : c d with
    | error e => simp [hc] at h
    | ok p =>
      cases hcv : f.createViewWithParams p s with
      | mk r s1 =>
        cases r with
        | error e => simp [hc, hcv] at h
        | ok v =>
          cases hsc : p.setAsCurrent <;> simp [hc, hcv, hsc] at h <;>
            rw [← h.1] <;> rfl
  · intro σ f c d s pb s2 h
    simp only [create_orphan_view_handler, upgrade_folder] at h
    cases hc : c d with
    | error e => simp [hc] at h
    | ok p =>
      cases hcv : f.createOrphanViewWithParams p s with
      | mk r s1 =>
        cases r with
        | error e => simp [hc, hcv] at h
        | ok v =>
          cases hsc : p.setAsCurrent <;> simp [hc, hcv, hsc] at h <;>
            rw [← h.1] <;> rfl
  · intro σ f c d s w s2 h
    simp only [create_workspace_handler, upgrade_folder] at h
    cases hc : c d with
    | error e => simp [hc] at h
    | ok p =>
      cases hcw : f.createWorkspace p s with
      | mk r s1 =>
        cases r with
        | error e => simp [hc, hcw] at h
        | ok ws =>
          cases hgv : f.getViewsBelongTo ws.id s1 with
          | mk r2 sB =>
            cases r2 with
            | error e => simp [hc, hcw, hgv] at h
            | ok childViews =>
              simp [hc, hcw, hgv] at h
              rw [← h.1]
              intro v hv
              rcases List.mem_map.mp hv with ⟨u, hu, hvu⟩
              rw [← hvu]
              rfl

/-- C10 witness: on a manager whose created views and workspace views all
have children in the tree, the returned serialisations still carry no child
views. -/
theorem C10_created_views_serialised_without_children_witness :
    (view_pb_without_child_views ⟨"view-id", "n", 0, ["c1", "c2"]⟩).childViews = []
    ∧ (view_pb_without_child_views ⟨"view-id", "n", 0, ["c1"]⟩).childViews = []
    ∧ (view_pb_without_child_views ⟨"v1", "a", 0, ["c1"]⟩).childViews = [] :=
  ⟨C10_created_views_serialised_without_children.1 Unit childViewsManager view_conv
     ⟨"p", "n", false⟩ () (view_pb_without_child_views ⟨"view-id", "n", 0, ["c1", "c2"]⟩)
     () rfl,
   C10_created_views_serialised_without_children.2.1 Unit childViewsManager
     orphan_conv_quiet ⟨"v", "n"⟩ ()
     (view_pb_without_child_views ⟨"view-id", "n", 0, ["c1"]⟩) () rfl,
   C10_created_views_serialised_without_children.2.2 Unit childViewsManager ws_conv
     ⟨"nm", "d"⟩ ()
     ⟨"workspace-id", "nm",
       [view_pb_without_child_views ⟨"v1", "a", 0, ["c1"]⟩,
        view_pb_without_child_views ⟨"v2", "b", 0, []⟩], 0⟩ () rfl
     (view_pb_without_child_views ⟨"v1", "a", 0, ["c1"]⟩)
     (List.mem_cons_self _ _)⟩
